import Mathlib

/-!
Verification development for the focus-guard core: a shallow embedding of
the IPC event transport (`ipc_server.rs`), the per-session state machine,
aggregator and notifier loop (`state_manager.rs`), and the global input
activity tracker (`activity_monitor.rs`), together with theorems settling
the behavioural claims about them.

Time is modelled as a `Nat` in seconds (the unit used by the source's
`Duration::from_secs` constants); `Instant::elapsed` becomes natural
subtraction `now - t`, and `u64::saturating_sub` is `Nat` subtraction.
-/

namespace FocusGuard

/-- Wire-level CLI event kinds, from `ipc_server.rs` (`enum CliEvent`). -/
inductive CliEvent where
  | sessionStart
  | sessionEnd
  | working
  | stop
  | idlePrompt
  | permissionPrompt
deriving DecidableEq, Repr

/-- Inbound message from CLI hooks, from `ipc_server.rs` (`struct CliMessage`). -/
structure CliMessage where
  cli : String
  event : CliEvent
  pid : Option Nat
  timestamp : Option Nat
  session_id : Option String
  cwd : Option String
deriving DecidableEq, Repr

/-- One read attempt on a connection: a line, or an I/O error
(`reader.lines()` yielding `Ok`/`Err` in `handle_connection`). -/
inductive ReadLine where
  | ok (data : String)
  | ioError
deriving DecidableEq, Repr

/-- Outcome of `UnixListener::bind` in `start_ipc_server`. -/
inductive BindResult where
  | bound
  | failed (emsg : String)
deriving DecidableEq, Repr

/-- The read loop of `handle_connection` in `ipc_server.rs`: empty lines are
skipped, lines that fail to parse are logged and skipped, parsed messages are
forwarded in order, and a read error breaks the loop.  The JSON decoder
(`serde_json::from_str`) is abstracted as the `parse` parameter. -/
def handle_connection (parse : String → Option CliMessage) :
    List ReadLine → List CliMessage
  | [] => []
  | ReadLine.ioError :: _ => []
  | ReadLine.ok data :: rest =>
    if data.trim.isEmpty then handle_connection parse rest
    else
      match parse data with
      | some msg => msg :: handle_connection parse rest
      | none => handle_connection parse rest

/-- `start_ipc_server` in `ipc_server.rs`: on bind failure it logs and
returns (the transport does not start, the host process continues); on
success the accept loop runs.  Modelled as whether the server started. -/
def start_ipc_server (b : BindResult) : Bool :=
  match b with
  | BindResult.bound => true
  | BindResult.failed _ => false

/-- Predicate used to characterise `handle_connection`: a read attempt that
produced a line (as opposed to an I/O error). -/
def is_ok_read : ReadLine → Bool
  | ReadLine.ok _ => true
  | ReadLine.ioError => false

/-- Characterisation helper: the message forwarded for one read attempt, if
any (empty and unparseable lines give none, errors give none). -/
def parsed_of (parse : String → Option CliMessage) : ReadLine → Option CliMessage
  | ReadLine.ok d => if d.trim.isEmpty then none else parse d
  | ReadLine.ioError => none

/-- Session states, from `state_manager.rs` (`enum CliState`). -/
inductive CliState where
  | Working
  | WaitingInput
  | Idle
  | Offline
deriving DecidableEq, Repr

/-- Per-session record, from `state_manager.rs` (`struct CliStatus`). -/
structure CliStatus where
  cli_name : String
  state : CliState
  pid : Option Nat
  last_event : Option CliEvent
  last_update : Nat
  session_id : Option String
  cwd : Option String
  display_name : String
  stop_received_at : Option Nat
deriving DecidableEq, Repr

/-- `capitalize_first` in `state_manager.rs` (first char uppercased, rest kept). -/
def capitalize_first (s : String) : String :=
  match s.data with
  | [] => ""
  | c :: rest => String.mk (Char.toUpper c :: rest)

/-- Model of `std::path::Path::file_name` as used by `format_display_name`:
the last non-empty path component, unless it is a parent-directory marker. -/
def path_file_name (path : String) : Option String :=
  let comps := (path.splitOn "/").filter (fun c => ¬ (c = "" ∨ c = "."))
  match comps.getLast? with
  | none => none
  | some c => if c = ".." then none else some c

/-- `CliStatus::format_display_name` in `state_manager.rs`. -/
def format_display_name (cli_name : String) (cwd : Option String) : String :=
  let cli_display := capitalize_first cli_name
  match cwd with
  | some path => cli_display ++ " - " ++ ((path_file_name path).getD path)
  | none => cli_display

/-- `CliStatus::with_details` in `state_manager.rs`: a freshly created
record.  `Instant::now()` is the `now` argument. -/
def CliStatus.with_details (cli_name : String) (session_id cwd : Option String)
    (now : Nat) : CliStatus :=
  { cli_name := cli_name
    state := CliState.Offline
    pid := none
    last_event := none
    last_update := now
    session_id := session_id
    cwd := cwd
    display_name := format_display_name cli_name cwd
    stop_received_at := none }

/-- `make_state_key` in `state_manager.rs`. -/
def make_state_key (cli : String) (session_id : Option String) : String :=
  match session_id with
  | some sid => cli ++ ":" ++ sid
  | none => cli

/-- The body of the `Ok(msg)` branch of the state-manager loop
(`state_manager.rs` lines 156-205) applied to one record: field updates
(`last_event`, `last_update`, unconditional `pid`, conditional `session_id`
and `cwd` with `update_display_name`), then the per-event transition. -/
def applyMessage (st : CliStatus) (msg : CliMessage) (now : Nat) : CliStatus :=
  let st1 : CliStatus :=
    { st with last_event := some msg.event, last_update := now, pid := msg.pid }
  let st2 : CliStatus :=
    match msg.session_id with
    | some sid => { st1 with session_id := some sid }
    | none => st1
  let st3 : CliStatus :=
    match msg.cwd with
    | some c =>
      { st2 with cwd := some c
                 display_name := format_display_name st2.cli_name (some c) }
    | none => st2
  match msg.event with
  | CliEvent.sessionStart =>
    { st3 with stop_received_at := none, state := CliState.Working }
  | CliEvent.sessionEnd =>
    { st3 with stop_received_at := none, state := CliState.Offline }
  | CliEvent.working =>
    { st3 with stop_received_at := none, state := CliState.Working }
  | CliEvent.stop =>
    { st3 with stop_received_at := some now
               state := if st3.state = CliState.Offline then CliState.Working
                        else st3.state }
  | CliEvent.idlePrompt =>
    { st3 with stop_received_at := none, state := CliState.Idle }
  | CliEvent.permissionPrompt =>
    { st3 with stop_received_at := none, state := CliState.WaitingInput }

/-- The session registry: the `HashMap<String, CliStatus>` of
`StateManager`, modelled as an association list with unique keys. -/
abbrev Registry := List (String × CliStatus)

/-- Lookup in the registry (`HashMap` get). -/
def findRecord : Registry → String → Option CliStatus
  | [], _ => none
  | (k, v) :: rest, key => if k = key then some v else findRecord rest key

/-- Insert-or-replace in the registry (`HashMap` entry write-back). -/
def setRecord : Registry → String → CliStatus → Registry
  | [], key, v => [(key, v)]
  | (k, w) :: rest, key, v =>
    if k = key then (key, v) :: rest else (k, w) :: setRecord rest key v

/-- The key set of the registry. -/
def keys (m : Registry) : List String := m.map (fun p => p.1)

/-- The record after processing `msg` (the `entry(..).or_insert_with(..)`
default followed by the update code of the `Ok(msg)` branch). -/
def updatedStatus (m : Registry) (msg : CliMessage) (now : Nat) : CliStatus :=
  applyMessage
    ((findRecord m (make_state_key msg.cli msg.session_id)).getD
      (CliStatus.with_details msg.cli msg.session_id msg.cwd now))
    msg now

/-- The registry mutation performed by one inbound event. -/
def eventStep (m : Registry) (msg : CliMessage) (now : Nat) : Registry :=
  setRecord m (make_state_key msg.cli msg.session_id) (updatedStatus m msg now)

/-- `StateManager::calculate_aggregate_state` in `state_manager.rs`. -/
def calculate_aggregate_state (m : Registry) : CliState :=
  if m.isEmpty then CliState.Offline
  else
    let has_waiting := m.any (fun p => p.2.state = CliState.WaitingInput)
    let has_working := m.any (fun p => p.2.state = CliState.Working)
    let has_idle := m.any (fun p => p.2.state = CliState.Idle)
    if has_waiting then CliState.WaitingInput
    else if has_working then CliState.Working
    else if has_idle then CliState.Idle
    else CliState.Offline

/-- Modelled from the spec's words (for comparison with
`calculate_aggregate_state`): strict priority WaitingInput over Working over
Idle over Offline, first match wins, empty registry aggregates to Offline. -/
def aggregateStatusSpec (m : Registry) : CliState :=
  if m.any (fun p => p.2.state = CliState.WaitingInput) then CliState.WaitingInput
  else if m.any (fun p => p.2.state = CliState.Working) then CliState.Working
  else if m.any (fun p => p.2.state = CliState.Idle) then CliState.Idle
  else CliState.Offline

/-- The timer-sweep body for one record (`state_manager.rs` lines 236-253),
returning the updated record and whether this record set `state_updated`:
first the Stop grace check (`stop_time.elapsed() > 3s`), then the
stale-WaitingInput demotion (`last_update.elapsed() > timeout * 6`). -/
def sweepStatusFlag (timeout now : Nat) (st : CliStatus) : CliStatus × Bool :=
  let p : CliStatus × Bool :=
    match st.stop_received_at with
    | some t =>
      if 3 < now - t then
        ({ st with state := CliState.WaitingInput, stop_received_at := none }, true)
      else (st, false)
    | none => (st, false)
  if p.1.state = CliState.WaitingInput ∧ timeout * 6 < now - p.1.last_update then
    ({ p.1 with state := CliState.Idle }, true)
  else p

/-- The record after one timer sweep. -/
def sweepStatus (timeout now : Nat) (st : CliStatus) : CliStatus :=
  (sweepStatusFlag timeout now st).1

/-- The timer sweep over the whole registry, returning the updated registry
and the `state_updated` flag. -/
def sweepRegistry (timeout now : Nat) : Registry → Registry × Bool
  | [] => ([], false)
  | (k, st) :: rest =>
    let p := sweepStatusFlag timeout now st
    let q := sweepRegistry timeout now rest
    ((k, p.1) :: q.1, p.2 || q.2)

/-- A sequence of timer sweeps on one record, at the given times. -/
def sweepTimes (timeout : Nat) (ts : List Nat) (st : CliStatus) : CliStatus :=
  ts.foldl (fun s n => sweepStatus timeout n s) st

/-- `StateChangeEvent` in `state_manager.rs`: the callback payload. -/
structure StateChangeEvent where
  state : CliState
  pid : Option Nat
  cwd : Option String
  cli_name : String
  state_changed : Bool
deriving DecidableEq, Repr

/-- The loop-local state of `StateManager::start`: the shared registry plus
the `last_aggregate_state` variable. -/
structure LoopState where
  states : Registry
  last_aggregate_state : CliState
deriving DecidableEq, Repr

/-- One `Ok(msg)` iteration of the state-manager loop: mutate the record,
recompute the aggregate, update `last_aggregate_state` when it moved, and
invoke the callback (always, with the `state_changed` flag). -/
def eventIteration (ls : LoopState) (msg : CliMessage) (now : Nat) :
    LoopState × StateChangeEvent :=
  let st := updatedStatus ls.states msg now
  let m := eventStep ls.states msg now
  let agg := calculate_aggregate_state m
  let changed : Bool := decide (agg ≠ ls.last_aggregate_state)
  ({ states := m
     last_aggregate_state := if changed then agg else ls.last_aggregate_state },
   { state := agg
     pid := st.pid
     cwd := st.cwd
     cli_name := st.cli_name
     state_changed := changed })

/-- One timeout iteration of the state-manager loop: sweep every record,
recompute the aggregate, and invoke the callback only when the aggregate
moved or some record was updated. -/
def timerIteration (timeout : Nat) (ls : LoopState) (now : Nat) :
    LoopState × Option StateChangeEvent :=
  let p := sweepRegistry timeout now ls.states
  let agg := calculate_aggregate_state p.1
  if agg ≠ ls.last_aggregate_state ∨ p.2 = true then
    let changed : Bool := decide (agg ≠ ls.last_aggregate_state)
    ({ states := p.1
       last_aggregate_state := if changed then agg else ls.last_aggregate_state },
     some { state := agg
            pid := none
            cwd := none
            cli_name := ""
            state_changed := changed })
  else ({ states := p.1, last_aggregate_state := ls.last_aggregate_state }, none)

/-- One registry mutation: an inbound event or a timer tick. -/
inductive RegStep where
  | event (msg : CliMessage) (now : Nat)
  | timer (timeout now : Nat)

/-- Apply one registry mutation. -/
def runStep (m : Registry) : RegStep → Registry
  | RegStep.event msg now => eventStep m msg now
  | RegStep.timer timeout now => (sweepRegistry timeout now m).1

/-- Apply a sequence of registry mutations. -/
def runSteps (m : Registry) (ss : List RegStep) : Registry :=
  ss.foldl runStep m

/-- The activity tracker's visible state, from `activity_monitor.rs`
(`struct ActivityMonitor`): all timestamps in seconds since the epoch. -/
structure ActivityState where
  last_activity : Nat
  monitoring_start_time : Nat
  event_count : Nat
  is_monitoring : Bool
deriving DecidableEq, Repr

/-- `ActivityMonitor::start_monitoring` (arming) in `activity_monitor.rs`:
resets the event counter and the monitoring start time, turns monitoring on,
and deliberately leaves `last_activity` untouched. -/
def start_monitoring (s : ActivityState) (now : Nat) : ActivityState :=
  { s with is_monitoring := true, event_count := 0, monitoring_start_time := now }

/-- `ActivityMonitor::stop_monitoring` (disarming). -/
def stop_monitoring (s : ActivityState) : ActivityState :=
  { s with is_monitoring := false }

/-- The listener callback body in `ActivityMonitor::start`: while monitoring,
an observed input event bumps the counter and the last-activity time. -/
def record_event (s : ActivityState) (now : Nat) : ActivityState :=
  if s.is_monitoring then
    { s with last_activity := now, event_count := s.event_count + 1 }
  else s

/-- `ActivityMonitor::is_inactive_for` in `activity_monitor.rs`. -/
def is_inactive_for (s : ActivityState) (now secs : Nat) : Bool :=
  if s.event_count = 0 then false
  else if s.last_activity ≤ s.monitoring_start_time then true
  else decide (secs ≤ now - s.last_activity)

/-! ### Example values used by witnesses and counterexamples -/

/-- A record in state Working with a pid, used in counterexamples. -/
def recWorkingPid : CliStatus :=
  { cli_name := "claude"
    state := CliState.Working
    pid := some 5
    last_event := some CliEvent.working
    last_update := 0
    session_id := some "a"
    cwd := none
    display_name := "Claude"
    stop_received_at := none }

/-- A message carrying no pid, session id or cwd. -/
def msgBare : CliMessage :=
  { cli := "claude"
    event := CliEvent.working
    pid := none
    timestamp := none
    session_id := none
    cwd := none }

/-- A record in state WaitingInput. -/
def recWaiting : CliStatus :=
  { cli_name := "gemini"
    state := CliState.WaitingInput
    pid := none
    last_event := some CliEvent.permissionPrompt
    last_update := 0
    session_id := some "b"
    cwd := none
    display_name := "Gemini"
    stop_received_at := none }

/-- A record in state Idle. -/
def recIdle : CliStatus :=
  { cli_name := "codex"
    state := CliState.Idle
    pid := none
    last_event := some CliEvent.idlePrompt
    last_update := 0
    session_id := none
    cwd := none
    display_name := "Codex"
    stop_received_at := none }

/-- A registry with one Working, one WaitingInput and one Idle record. -/
def exRegMixed : Registry :=
  [("claude:a", recWorkingPid), ("gemini:b", recWaiting), ("codex", recIdle)]

/-- A Working record with a pending Stop marker set at time 0. -/
def recStopPending : CliStatus :=
  { recWorkingPid with stop_received_at := some 0 }

/-- An activity tracker state with events recorded before arming
(`event_count = 7`, `last_activity = 100`). -/
def exActPre : ActivityState :=
  { last_activity := 100
    monitoring_start_time := 0
    event_count := 7
    is_monitoring := true }

/-- An activity tracker state with one event since arming: last activity at
100, monitoring started at 0. -/
def exActOne : ActivityState :=
  { last_activity := 100
    monitoring_start_time := 0
    event_count := 1
    is_monitoring := true }

/-- A Stop message for session `claude:a`. -/
def msgStop : CliMessage :=
  { cli := "claude"
    event := CliEvent.stop
    pid := none
    timestamp := none
    session_id := some "a"
    cwd := none }

/-- A SessionEnd message for session `claude:a`. -/
def msgEnd : CliMessage :=
  { msgStop with event := CliEvent.sessionEnd }

/-- A step sequence: one inbound Stop event, then one timer tick. -/
def exSteps : List RegStep :=
  [RegStep.event msgStop 1, RegStep.timer 10 5]

/-- A loop state holding one record with a pending Stop marker, with the
previous aggregate at Working. -/
def exLS : LoopState :=
  { states := [("claude:a", recStopPending)]
    last_aggregate_state := CliState.Working }

/-- The loop state produced from `exLS` by the timer iteration at time 5. -/
def exLS2 : LoopState :=
  { states := [("claude:a",
      { recStopPending with state := CliState.WaitingInput
                            stop_received_at := none })]
    last_aggregate_state := CliState.WaitingInput }

/-- The callback payload produced from `exLS` by the timer iteration at
time 5. -/
def exEv : StateChangeEvent :=
  { state := CliState.WaitingInput
    pid := none
    cwd := none
    cli_name := ""
    state_changed := true }

/-! ### Helper lemmas -/

/-- Field-by-field description of `applyMessage`. -/
lemma applyMessage_fields (st : CliStatus) (msg : CliMessage) (now : Nat) :
    (applyMessage st msg now).state = (match msg.event with
      | CliEvent.sessionStart => CliState.Working
      | CliEvent.sessionEnd => CliState.Offline
      | CliEvent.working => CliState.Working
      | CliEvent.stop =>
        if st.state = CliState.Offline then CliState.Working else st.state
      | CliEvent.idlePrompt => CliState.Idle
      | CliEvent.permissionPrompt => CliState.WaitingInput)
    ∧ (applyMessage st msg now).stop_received_at = (match msg.event with
      | CliEvent.stop => some now
      | _ => none)
    ∧ (applyMessage st msg now).pid = msg.pid
    ∧ (applyMessage st msg now).cli_name = st.cli_name
    ∧ (applyMessage st msg now).last_update = now
    ∧ (applyMessage st msg now).last_event = some msg.event
    ∧ (applyMessage st msg now).session_id = (match msg.session_id with
      | some sid => some sid
      | none => st.session_id)
    ∧ (applyMessage st msg now).cwd = (match msg.cwd with
      | some c => some c
      | none => st.cwd)
    ∧ (applyMessage st msg now).display_name = (match msg.cwd with
      | some c => format_display_name st.cli_name (some c)
      | none => st.display_name) := by
  obtain ⟨cli, ev, pid, ts, sid, cwd⟩ := msg
  cases sid <;> cases cwd <;> cases ev <;> simp [applyMessage]

/-- A timer sweep on a Working record whose Stop marker is within the
3-second grace window leaves the record unchanged. -/
lemma sweepStatus_working_pending (timeout now t0 : Nat) (st : CliStatus)
    (hs : st.state = CliState.Working) (hp : st.stop_received_at = some t0)
    (hle : now - t0 ≤ 3) :
    sweepStatus timeout now st = st := by
  simp [sweepStatus, sweepStatusFlag, hp, Nat.not_lt.mpr hle, hs]

/-- A sequence of timer sweeps, each within the grace window, leaves a
Working record with a pending Stop marker unchanged. -/
lemma sweepTimes_working_pending (timeout t0 : Nat) (ts : List Nat)
    (hts : ∀ n ∈ ts, n - t0 ≤ 3) (st : CliStatus)
    (hs : st.state = CliState.Working) (hp : st.stop_received_at = some t0) :
    sweepTimes timeout ts st = st := by
  induction ts with
  | nil => rfl
  | cons n ns ih =>
    have h1 : sweepStatus timeout n st = st :=
      sweepStatus_working_pending timeout n t0 st hs hp
        (hts n (List.mem_cons_self n ns))
    have h2 : ∀ m ∈ ns, m - t0 ≤ 3 := fun m hm => hts m (List.mem_cons_of_mem n hm)
    calc sweepTimes timeout (n :: ns) st
        = sweepTimes timeout ns (sweepStatus timeout n st) := rfl
      _ = sweepTimes timeout ns st := by rw [h1]
      _ = st := ih h2

/-- Writing a key makes it retrievable. -/
lemma findRecord_setRecord (m : Registry) (k : String) (v : CliStatus) :
    findRecord (setRecord m k v) k = some v := by
  induction m with
  | nil => simp [setRecord, findRecord]
  | cons a rest ih =>
    by_cases h : a.1 = k
    · simp [setRecord, findRecord, h]
    · simp [setRecord, findRecord, h, ih]

/-- Writing a key preserves all existing keys. -/
lemma mem_keys_setRecord (m : Registry) (k k' : String) (v : CliStatus)
    (h : k' ∈ keys m) : k' ∈ keys (setRecord m k v) := by
  induction m with
  | nil => cases h
  | cons a rest ih =>
    simp only [keys, List.map_cons, List.mem_cons] at h
    by_cases hk : a.1 = k
    · simp only [setRecord, hk, if_pos, keys, List.map_cons, List.mem_cons]
      rcases h with h | h
      · exact Or.inl (h.trans hk)
      · exact Or.inr h
    · simp only [setRecord, if_neg hk, keys, List.map_cons, List.mem_cons]
      rcases h with h | h
      · exact Or.inl h
      · exact Or.inr (ih h)

/-- A singleton registry whose record is Working aggregates to Working. -/
lemma aggregate_singleton_working (k : String) (r : CliStatus)
    (h : r.state = CliState.Working) :
    calculate_aggregate_state [(k, r)] = CliState.Working := by
  simp [calculate_aggregate_state, h]

/-- The timer sweep preserves the key set exactly. -/
lemma keys_sweepRegistry (timeout now : Nat) (m : Registry) :
    keys (sweepRegistry timeout now m).1 = keys m := by
  induction m with
  | nil => rfl
  | cons a rest ih =>
    simp [sweepRegistry, keys, List.map_cons] at ih ⊢
    exact ih

/-! ### Claim theorems -/

/-- Claim C1: the per-event transition produces exactly the spec's table —
SessionStart gives Working, SessionEnd gives Offline, Working gives Working,
IdlePrompt gives Idle, PermissionPrompt gives WaitingInput (each clearing
`stop_received_at`); Stop keeps the state when it is non-Offline, turns
Offline into Working, and sets `stop_received_at` to now; and a freshly
created record starts in Offline (to be overwritten by the first processed
event in the same step). -/
theorem transition_table (st : CliStatus) (msg : CliMessage) (now : Nat)
    (cli : String) (sid cw : Option String) (n0 : Nat) :
    (applyMessage st msg now).state = (match msg.event with
      | CliEvent.sessionStart => CliState.Working
      | CliEvent.sessionEnd => CliState.Offline
      | CliEvent.working => CliState.Working
      | CliEvent.stop =>
        if st.state = CliState.Offline then CliState.Working else st.state
      | CliEvent.idlePrompt => CliState.Idle
      | CliEvent.permissionPrompt => CliState.WaitingInput)
    ∧ (applyMessage st msg now).stop_received_at = (match msg.event with
      | CliEvent.stop => some now
      | _ => none)
    ∧ (CliStatus.with_details cli sid cw n0).state = CliState.Offline := by
  refine ⟨(applyMessage_fields st msg now).1,
    (applyMessage_fields st msg now).2.1, rfl⟩

/-- Claim C2: the aggregate status follows the strict priority WaitingInput
over Working over Idle over Offline; an empty registry aggregates to
Offline; and any registry containing a WaitingInput record aggregates to
WaitingInput no matter what the other records are. -/
theorem aggregate_priority (m : Registry) :
    calculate_aggregate_state m = aggregateStatusSpec m
    ∧ calculate_aggregate_state ([] : Registry) = CliState.Offline
    ∧ (∀ r ∈ m, r.2.state = CliState.WaitingInput →
        calculate_aggregate_state m = CliState.WaitingInput) := by
  refine ⟨?_, rfl, ?_⟩
  · cases m with
    | nil => rfl
    | cons a l => simp [calculate_aggregate_state, aggregateStatusSpec]
  · intro r hr hw
    have hany : m.any (fun p => p.2.state = CliState.WaitingInput) = true := by
      exact List.any_eq_true.mpr ⟨r, hr, by simp [hw]⟩
    cases m with
    | nil => cases hr
    | cons a l => simp [calculate_aggregate_state, hany]

/-- Witness for C2: a registry with Working, WaitingInput and Idle records
aggregates to WaitingInput. -/
theorem aggregate_priority_witness :
    calculate_aggregate_state exRegMixed = CliState.WaitingInput :=
  (aggregate_priority exRegMixed).2.2 ("gemini:b", recWaiting)
    (by decide) (by decide)

/-- Counterexample to claim C6 as stated: a record whose stored pid is
`some 5` processed with an event that supplies no pid ends with pid `none` —
the stored value is not left unchanged, it is overwritten (cleared). -/
theorem pid_overwritten_cex :
    recWorkingPid.pid = some 5 ∧ msgBare.pid = none
    ∧ (applyMessage recWorkingPid msgBare 1).pid = none := by
  refine ⟨rfl, rfl, ?_⟩
  exact (applyMessage_fields recWorkingPid msgBare 1).2.2.1

/-- Claim C6 as amended: `session_id` and `cwd` are overwritten only when
the event supplies a value (otherwise unchanged), `display_name` is
recomputed exactly when the event supplies a cwd (hence whenever cwd
changes), but `pid` is unconditionally overwritten with the event's pid
field — an event lacking a pid clears the stored pid. -/
theorem field_update_rules (st : CliStatus) (msg : CliMessage) (now : Nat) :
    (applyMessage st msg now).pid = msg.pid
    ∧ (applyMessage st msg now).session_id = (match msg.session_id with
      | some sid => some sid
      | none => st.session_id)
    ∧ (applyMessage st msg now).cwd = (match msg.cwd with
      | some c => some c
      | none => st.cwd)
    ∧ (applyMessage st msg now).display_name = (match msg.cwd with
      | some c => format_display_name st.cli_name (some c)
      | none => st.display_name) := by
  refine ⟨(applyMessage_fields st msg now).2.2.1,
    (applyMessage_fields st msg now).2.2.2.2.2.2.1,
    (applyMessage_fields st msg now).2.2.2.2.2.2.2.1,
    (applyMessage_fields st msg now).2.2.2.2.2.2.2.2⟩

/-- Claim C7: `is_inactive_for` evaluates its checks in order — zero events
since arming gives false; otherwise a last-activity time at or before the
monitoring start gives true; otherwise the result is `now - last_activity ≥
duration`. -/
theorem is_inactive_for_cascade (s : ActivityState) (now secs : Nat) :
    (s.event_count = 0 → is_inactive_for s now secs = false)
    ∧ (s.event_count ≠ 0 → s.last_activity ≤ s.monitoring_start_time →
        is_inactive_for s now secs = true)
    ∧ (s.event_count ≠ 0 → s.monitoring_start_time < s.last_activity →
        (is_inactive_for s now secs = true ↔ secs ≤ now - s.last_activity)) := by
  refine ⟨?_, ?_, ?_⟩
  · intro h; simp [is_inactive_for, h]
  · intro h1 h2; simp [is_inactive_for, h1, h2]
  · intro h1 h2
    simp [is_inactive_for, h1, Nat.not_le.mpr h2]

/-- Witness for C7: one event since arming, last activity at 100 after a
monitoring start at 0, queried at 220 for a 120-second duration: inactive. -/
theorem is_inactive_for_cascade_witness :
    is_inactive_for exActOne 220 120 = true :=
  ((is_inactive_for_cascade exActOne 220 120).2.2
    (by decide) (by decide)).mpr (by decide)

/-- Counterexample to claim C8 as stated: seven events were recorded before
arming (last at time 100), arming happens at 200, no event is recorded
afterwards, and at time 320 (120 seconds after arming) `is_inactive_for
120` returns false, not true — arming reset the event counter to zero, so
events recorded before arming do not unblock the zero-count check. -/
theorem inactive_after_arm_cex :
    exActPre.event_count = 7
    ∧ (start_monitoring exActPre 200).event_count = 0
    ∧ is_inactive_for (start_monitoring exActPre 200) 320 120 = false := by
  decide

/-- Claim C8 as amended: if `arm()` was called and no `record_event` call
occurred afterwards, then `is_inactive_for` returns false for every
duration and every query time, regardless of events recorded before arming
— the zero-count check blocks because arming resets the counter. -/
theorem inactive_after_arm (s : ActivityState) (tArm now d : Nat) :
    is_inactive_for (start_monitoring s tArm) now d = false := by
  simp [is_inactive_for, start_monitoring]

/-- Counterexample to claim C3 as stated: (a) a record with a Stop marker
set at time 0 is swept at time 3 — exactly the 3-second grace window has
elapsed — yet the state stays Working and the marker stays set (the code
requires strictly more than 3 seconds); (b) a WaitingInput record whose
last event was at time 0 is swept at time 60 with base timeout 10 — exactly
6 times the base timeout has elapsed — yet it is not demoted to Idle (the
code requires strictly more than 60 seconds). -/
theorem sweep_boundary_cex :
    recStopPending.stop_received_at = some 0
    ∧ (3 : Nat) - 0 ≥ 3
    ∧ (sweepStatus 10 3 recStopPending).state = CliState.Working
    ∧ (sweepStatus 10 3 recStopPending).stop_received_at = some 0
    ∧ recWaiting.state = CliState.WaitingInput
    ∧ (60 : Nat) - recWaiting.last_update ≥ 10 * 6
    ∧ (sweepStatus 10 60 recWaiting).state = CliState.WaitingInput := by
  decide

/-- Claim C3 as amended: the timer sweep (a) clears the pending marker and
forces the state to WaitingInput whenever strictly more than the 3-second
grace window has elapsed since the Stop event (landing in Idle instead when
the record is simultaneously stale for strictly more than 6 times the base
timeout), and (b) demotes a WaitingInput record to Idle whenever strictly
more than 6 times the base timeout (60 seconds with the default 10-second
base) has elapsed since its last event; elapsed times exactly equal to the
bounds do not fire. -/
theorem sweep_grace_and_demotion (timeout now : Nat) (st : CliStatus) :
    (∀ t, st.stop_received_at = some t → 3 < now - t →
      (sweepStatus timeout now st).stop_received_at = none
      ∧ (sweepStatus timeout now st).state =
          (if timeout * 6 < now - st.last_update then CliState.Idle
           else CliState.WaitingInput))
    ∧ (st.state = CliState.WaitingInput → timeout * 6 < now - st.last_update →
        (sweepStatus timeout now st).state = CliState.Idle) := by
  constructor
  · intro t h hel
    by_cases hd : timeout * 6 < now - st.last_update
    · simp [sweepStatus, sweepStatusFlag, h, hel, hd]
    · simp [sweepStatus, sweepStatusFlag, h, hel, hd]
  · intro hw hd
    cases h : st.stop_received_at with
    | none => simp [sweepStatus, sweepStatusFlag, h, hw, hd]
    | some t =>
      by_cases hg : 3 < now - t
      · simp [sweepStatus, sweepStatusFlag, h, hg, hd]
      · simp [sweepStatus, sweepStatusFlag, h, hg, hw, hd]

/-- Witness for C3 (amended): the pending record swept at time 4 (elapsed
4 > 3, not yet stale) ends in WaitingInput with the marker cleared. -/
theorem sweep_grace_and_demotion_witness :
    (sweepStatus 10 4 recStopPending).stop_received_at = none
    ∧ (sweepStatus 10 4 recStopPending).state =
        (if 10 * 6 < 4 - recStopPending.last_update then CliState.Idle
         else CliState.WaitingInput) :=
  (sweep_grace_and_demotion 10 4 recStopPending).1 0 (by decide) (by decide)

/-- Claim C4: a Working session that receives a Stop event at time `t0` and
a Working event less than 3 seconds later is in state Working after every
intermediate timer sweep (all of which happen within the grace window) and
after the Working event — it never transiently becomes WaitingInput. -/
theorem stop_then_working_stays_working
    (timeout t0 tW : Nat) (st : CliStatus) (stopMsg workMsg : CliMessage)
    (hst : st.state = CliState.Working)
    (hstop : stopMsg.event = CliEvent.stop)
    (hwork : workMsg.event = CliEvent.working)
    (ts : List Nat) (hts : ∀ n ∈ ts, n - t0 ≤ 3) :
    (∀ pre suf, ts = pre ++ suf →
      (sweepTimes timeout pre (applyMessage st stopMsg t0)).state = CliState.Working)
    ∧ (∀ key pre suf, ts = pre ++ suf →
      calculate_aggregate_state
        [(key, sweepTimes timeout pre (applyMessage st stopMsg t0))]
        = CliState.Working)
    ∧ (applyMessage (sweepTimes timeout ts (applyMessage st stopMsg t0))
        workMsg tW).state = CliState.Working := by
  have h1s : (applyMessage st stopMsg t0).state = CliState.Working := by
    have h := (applyMessage_fields st stopMsg t0).1
    rw [hstop] at h
    rw [h, hst]
    simp
  have h1p : (applyMessage st stopMsg t0).stop_received_at = some t0 := by
    have h := (applyMessage_fields st stopMsg t0).2.1
    rw [hstop] at h
    exact h
  have hEachPre : ∀ pre suf, ts = pre ++ suf →
      (sweepTimes timeout pre (applyMessage st stopMsg t0)).state
        = CliState.Working := by
    intro pre suf hsplit
    have hpre : ∀ n ∈ pre, n - t0 ≤ 3 := by
      intro n hn
      exact hts n (by rw [hsplit]; exact List.mem_append_left suf hn)
    rw [sweepTimes_working_pending timeout t0 pre hpre _ h1s h1p]
    exact h1s
  refine ⟨hEachPre, ?_, ?_⟩
  · intro key pre suf hsplit
    exact aggregate_singleton_working key _ (hEachPre pre suf hsplit)
  · rw [sweepTimes_working_pending timeout t0 ts hts _ h1s h1p]
    have h := (applyMessage_fields (applyMessage st stopMsg t0) workMsg tW).1
    rw [hwork] at h
    exact h

/-- Witness for C4: a concrete Working record, Stop at time 0, sweeps at
times 1, 2 and 3, Working event at time 2 — the state ends Working. -/
theorem stop_then_working_stays_working_witness :
    (applyMessage (sweepTimes 10 [1, 2, 3] (applyMessage recWorkingPid msgStop 0))
      msgBare 2).state = CliState.Working :=
  (stop_then_working_stays_working 10 0 2 recWorkingPid msgStop msgBare
    rfl rfl rfl [1, 2, 3] (by decide)).2.2

/-- Claim C5: in both loop paths the `state_changed` flag handed to the
callback is true exactly when the newly computed aggregate differs from the
aggregate of the previous recomputation — and `last_aggregate_state` is
kept equal to the latest computed aggregate, so the comparison value really
is the previous recomputation's aggregate. -/
theorem state_changed_iff_aggregate_moved
    (timeout : Nat) (ls : LoopState) (msg : CliMessage) (nowE nowT : Nat)
    (ls' : LoopState) (ev : StateChangeEvent)
    (hT : timerIteration timeout ls nowT = (ls', some ev)) :
    ((eventIteration ls msg nowE).2.state_changed = true
      ↔ calculate_aggregate_state (eventStep ls.states msg nowE)
          ≠ ls.last_aggregate_state)
    ∧ ((eventIteration ls msg nowE).1.last_aggregate_state
      = calculate_aggregate_state (eventStep ls.states msg nowE))
    ∧ (ev.state_changed = true
      ↔ calculate_aggregate_state (sweepRegistry timeout nowT ls.states).1
          ≠ ls.last_aggregate_state)
    ∧ (ls'.last_aggregate_state
      = calculate_aggregate_state (sweepRegistry timeout nowT ls.states).1) := by
  refine ⟨?_, ?_, ?_, ?_⟩
  · simp [eventIteration]
  · by_cases h : calculate_aggregate_state (eventStep ls.states msg nowE)
        = ls.last_aggregate_state
    · simp [eventIteration, h]
    · simp [eventIteration, h]
  · simp only [timerIteration] at hT
    split at hT
    · simp only [Prod.mk.injEq, Option.some.injEq] at hT
      rw [← hT.2]
      simp
    · simp at hT
  · simp only [timerIteration] at hT
    split at hT
    · simp only [Prod.mk.injEq, Option.some.injEq] at hT
      rw [← hT.1]
      by_cases h : calculate_aggregate_state (sweepRegistry timeout nowT ls.states).1
          = ls.last_aggregate_state
      · simp [h]
      · simp [h]
    · simp at hT

/-- Witness for C5: a loop state with one pending-Stop record and previous
aggregate Working; the timer iteration at time 5 fires a callback, and the
event-path flag is characterised as the theorem states. -/
theorem state_changed_iff_aggregate_moved_witness :
    (eventIteration exLS msgBare 1).2.state_changed = true
      ↔ calculate_aggregate_state (eventStep exLS.states msgBare 1)
          ≠ exLS.last_aggregate_state :=
  (state_changed_iff_aggregate_moved 10 exLS msgBare 1 5 exLS2 exEv
    (by decide)).1

/-- Claim C9: the connection read loop forwards exactly the successfully
parsed, non-empty lines that precede the first read error, in order — a
parse failure skips only that line, a read error ends only that
connection's loop — and a bind failure means the transport does not start,
returning normally instead of crashing the host. -/
theorem connection_forwarding (parse : String → Option CliMessage)
    (lines : List ReadLine) :
    handle_connection parse lines
      = (lines.takeWhile is_ok_read).filterMap (parsed_of parse)
    ∧ (∀ e, start_ipc_server (BindResult.failed e) = false) := by
  refine ⟨?_, fun e => rfl⟩
  induction lines with
  | nil => rfl
  | cons a rest ih =>
    cases a with
    | ioError => simp [handle_connection, List.takeWhile_cons, is_ok_read]
    | ok d =>
      by_cases he : d.trim.isEmpty
      · simp [handle_connection, List.takeWhile_cons, is_ok_read, parsed_of,
          he, ih]
      · cases hp : parse d with
        | none =>
          simp [handle_connection, List.takeWhile_cons, is_ok_read, parsed_of,
            he, hp, ih]
        | some msgv =>
          simp [handle_connection, List.takeWhile_cons, is_ok_read, parsed_of,
            he, hp, ih]

/-- Claim C10: no registry operation removes an entry — over any sequence
of event and timer steps the key set only grows, the timer sweep preserves
it exactly, and a SessionEnd event keeps the record in the map with its
state set to Offline. -/
theorem registry_keys_monotone (m : Registry) (ss : List RegStep)
    (msg : CliMessage) (now timeout : Nat) :
    (∀ k, k ∈ keys m → k ∈ keys (runSteps m ss))
    ∧ keys (sweepRegistry timeout now m).1 = keys m
    ∧ (msg.event = CliEvent.sessionEnd →
        findRecord (eventStep m msg now) (make_state_key msg.cli msg.session_id)
          = some (updatedStatus m msg now)
        ∧ (updatedStatus m msg now).state = CliState.Offline) := by
  refine ⟨?_, keys_sweepRegistry timeout now m, ?_⟩
  · intro k
    induction ss generalizing m with
    | nil => exact fun h => h
    | cons s rest ih =>
      intro h
      have hstep : k ∈ keys (runStep m s) := by
        cases s with
        | event msg2 now2 => exact mem_keys_setRecord m _ k _ h
        | timer to2 now2 =>
          simp only [runStep]
          rw [keys_sweepRegistry]
          exact h
      exact ih (runStep m s) hstep
  · intro hend
    refine ⟨findRecord_setRecord m _ _, ?_⟩
    have h := (applyMessage_fields
      ((findRecord m (make_state_key msg.cli msg.session_id)).getD
        (CliStatus.with_details msg.cli msg.session_id msg.cwd now)) msg now).1
    rw [hend] at h
    exact h

/-- Witness for C10: after a Stop event and a timer tick the original key
is still present, and a SessionEnd event leaves an Offline record. -/
theorem registry_keys_monotone_witness :
    "claude:a" ∈ keys (runSteps exRegMixed exSteps)
    ∧ (updatedStatus exRegMixed msgEnd 2).state = CliState.Offline :=
  ⟨(registry_keys_monotone exRegMixed exSteps msgEnd 2 10).1 "claude:a"
      (by decide),
    ((registry_keys_monotone exRegMixed exSteps msgEnd 2 10).2.2 rfl).2⟩

end FocusGuard
